import Mathlib

/-!
# Verification of the danswer/onyx checkpointed-connector and permission-sync core

Shallow embedding of the Python source under `src/backend/`:

* `onyx/db/models.py` — `IndexAttempt.is_coordination_complete`
* `onyx/connectors/mock_connector/connector.py` — `MockConnector`
  (`_load_from_checkpoint_common`, `load_from_checkpoint`,
  `load_from_checkpoint_with_perm_sync`, `build_dummy_checkpoint`,
  `validate_checkpoint_json`)
* `ee/onyx/external_permissions/slack/doc_sync.py` — `_fetch_workspace_permissions`,
  `_fetch_channel_permissions`, `_get_slack_document_access`, `slack_doc_sync`
* `onyx/connectors/slack/utils.py` — `expert_info_from_slack_id`

External collaborators (the Slack Web API, the mock HTTP server, Redis, the
database session) are modelled as explicit function-valued inputs; Python
side effects (generator yields, checkpoint saves, mutation of caller-supplied
dicts) are modelled as explicit event traces and returned state.
-/

/-! ## Python truthiness helpers

Python treats `None` and the empty string as falsy.  Several branches in the
source (`if not user_id`, `if not member_email`, `if current_yield.unhandled_exception`)
test truthiness of a `str | None` value, so we model that test explicitly. -/

/-- Truthiness of a Python `str | None` value: `None` and `""` are falsy. -/
def pyTruthyStr : Option String → Bool
  | none => false
  | some s => !(s == "")

/-- Python's `x or y` on `str | None` operands: returns `x` when it is truthy,
otherwise `y` (used for `user.get("real_name") or profile.get("display_name")`
in `expert_info_from_slack_id`). -/
def pyOrStr (x y : Option String) : Option String :=
  if pyTruthyStr x then x else y

/-- Keep a `str | None` value only when it is Python-truthy
(used to model `if not member_email` guards). -/
def truthyStr : Option String → Option String
  | none => none
  | some s => if s == "" then none else some s

/-! ## §3 Data model -/

/-- Per-document access descriptor, from `onyx/access/models.py` (class not under
`src/`; fields modelled from the spec §3 «ExternalAccess: set of external user
identities, set of external group identities, is_public flag» and from every
construction site in `doc_sync.py` and `mock_connector/connector.py`).
Python `set[str]` values are modelled as duplicate-free lists built by
`insertElem`. -/
structure ExternalAccess where
  external_user_emails : List String
  external_user_group_ids : List String
  is_public : Bool
deriving Repr, DecidableEq

/-- `DocExternalAccess` from `onyx/access/models.py` (class not under `src/`;
fields modelled from its construction in `_get_slack_document_access`:
an `ExternalAccess` plus the document id it applies to). -/
structure DocExternalAccess where
  external_access : ExternalAccess
  doc_id : String
deriving Repr, DecidableEq

/-- Python `set.add`: insert an element unless already present. -/
def insertElem (xs : List String) (x : String) : List String :=
  if x ∈ xs then xs else xs ++ [x]

/-! ## `IndexAttempt` coordination (src/backend/onyx/db/models.py) -/

/-- The coordination-relevant fields of `IndexAttempt`
(`src/backend/onyx/db/models.py`): `total_batches` is a nullable integer
column, `completed_batches` a non-nullable integer column. -/
structure IndexAttempt where
  total_batches : Option Int
  completed_batches : Int
deriving Repr, DecidableEq

/-- `IndexAttempt.is_coordination_complete` (models.py lines 1783–1788):
`self.total_batches is not None and self.completed_batches >= self.total_batches`. -/
def IndexAttempt.is_coordination_complete (a : IndexAttempt) : Bool :=
  match a.total_batches with
  | none => false
  | some t => a.completed_batches ≥ t

/-! ## Mock connector (src/backend/onyx/connectors/mock_connector/connector.py) -/

/-- `MockConnectorCheckpoint(ConnectorCheckpoint)`: the base class
`ConnectorCheckpoint` (`onyx/connectors/models.py`, not under `src/`) is
modelled from the spec §3 «Checkpoint: connector-defined opaque payload + a
`has_more` flag», contributing the `has_more` field; the subclass adds
`last_document_id: str | None = None`. -/
structure MockConnectorCheckpoint where
  has_more : Bool
  last_document_id : Option String
deriving Repr, DecidableEq

/-- `Document` from `onyx/connectors/models.py` (not under `src/`): only the two
fields the mock connector reads or writes are modelled — `id` and
`external_access: ExternalAccess | None`. -/
structure Document where
  id : String
  external_access : Option ExternalAccess
deriving Repr, DecidableEq

/-- `ConnectorFailure` from `onyx/connectors/models.py` (not under `src/`): the
mock connector only passes these values through, so a failure message field
suffices. -/
structure ConnectorFailure where
  failure_message : String
deriving Repr, DecidableEq

/-- `SingleConnectorYield` (connector.py lines 28–32). -/
structure SingleConnectorYield where
  documents : List Document
  checkpoint : MockConnectorCheckpoint
  failures : List ConnectorFailure
  unhandled_exception : Option String
deriving Repr, DecidableEq

/-- The mutable state of a `MockConnector` instance that
`_load_from_checkpoint_common` reads and writes. -/
structure MockConnectorState where
  connector_yields : Option (List SingleConnectorYield)
  current_yield_index : Nat
deriving Repr, DecidableEq

/-- Observable events of one `_load_from_checkpoint_common` generator run:
the checkpoint save (HTTP POST to the mock server in `_save_checkpoint`) and
each `yield` of a `Document` or `ConnectorFailure`. -/
inductive MockEvent where
  | saveCheckpoint (cp : MockConnectorCheckpoint)
  | yieldDoc (d : Document)
  | yieldFailure (f : ConnectorFailure)
deriving Repr, DecidableEq

/-- Whether an event is a `yield` of a document or failure (as opposed to the
checkpoint save). -/
def MockEvent.isYield : MockEvent → Bool
  | .saveCheckpoint _ => false
  | .yieldDoc _ => true
  | .yieldFailure _ => true

/-- Result of driving one `_load_from_checkpoint_common` generator to
completion: the event trace in order, the exception raised (if any), and the
generator's return value (the next checkpoint; `none` when an exception was
raised instead). -/
structure CheckpointRunResult where
  events : List MockEvent
  error : Option String
  returned : Option MockConnectorCheckpoint
deriving Repr, DecidableEq

/-- `EXTERNAL_USER_EMAILS` and `EXTERNAL_USER_GROUP_IDS` (connector.py lines
20–21), assembled into the `ExternalAccess` the mock connector attaches at
lines 95–99. -/
def mockExternalAccess : ExternalAccess :=
  { external_user_emails := ["test@example.com", "admin@example.com"]
    external_user_group_ids := ["mock-group-1", "mock-group-2"]
    is_public := false }

/-- Lines 92–99 of connector.py: when permissions are requested and the
document has none, attach `mockExternalAccess`; otherwise yield the document
unchanged. -/
def patchDoc (include_permissions : Bool) (d : Document) : Document :=
  if include_permissions ∧ d.external_access = none then
    { d with external_access := some mockExternalAccess }
  else d

/-- `MockConnector._load_from_checkpoint_common` (connector.py lines 68–105),
run to completion.  Mirrors the source order: raise `ValueError` when no
yields are configured; save the incoming checkpoint to the mock server;
advance `current_yield_index`; index into `connector_yields` (an out-of-range
index raises `IndexError`); raise the configured unhandled exception when its
message is truthy; yield every (possibly permission-patched) document, then
every failure; return the yield's checkpoint.  `start`/`end` are accepted and
ignored exactly as in the source. -/
def loadFromCheckpointCommon (conn : MockConnectorState)
    (startTime endTime : Int) (checkpoint : MockConnectorCheckpoint)
    (include_permissions : Bool) : CheckpointRunResult × MockConnectorState :=
  match conn.connector_yields with
  | none =>
      ({ events := [], error := some "No connector yields configured",
         returned := none }, conn)
  | some yields =>
      match yields[conn.current_yield_index]? with
      | none =>
          ({ events := [MockEvent.saveCheckpoint checkpoint],
             error := some "IndexError: list index out of range",
             returned := none },
           { conn with current_yield_index := conn.current_yield_index + 1 })
      | some y =>
          if pyTruthyStr y.unhandled_exception then
            ({ events := [MockEvent.saveCheckpoint checkpoint],
               error := y.unhandled_exception, returned := none },
             { conn with current_yield_index := conn.current_yield_index + 1 })
          else
            ({ events := MockEvent.saveCheckpoint checkpoint ::
                 ((y.documents.map (patchDoc include_permissions)).map MockEvent.yieldDoc ++
                   y.failures.map MockEvent.yieldFailure),
               error := none, returned := some y.checkpoint },
             { conn with current_yield_index := conn.current_yield_index + 1 })

/-- `MockConnector.load_from_checkpoint` (connector.py lines 107–115):
the common path with `include_permissions=False`. -/
def load_from_checkpoint (conn : MockConnectorState)
    (startTime endTime : Int) (checkpoint : MockConnectorCheckpoint) :
    CheckpointRunResult × MockConnectorState :=
  loadFromCheckpointCommon conn startTime endTime checkpoint false

/-- `MockConnector.load_from_checkpoint_with_perm_sync` (connector.py lines
117–126): the common path with `include_permissions=True`. -/
def load_from_checkpoint_with_perm_sync (conn : MockConnectorState)
    (startTime endTime : Int) (checkpoint : MockConnectorCheckpoint) :
    CheckpointRunResult × MockConnectorState :=
  loadFromCheckpointCommon conn startTime endTime checkpoint true

/-- `MockConnector.build_dummy_checkpoint` (connector.py lines 128–133). -/
def build_dummy_checkpoint : MockConnectorCheckpoint :=
  { has_more := true, last_document_id := none }

/-- `MockConnector.validate_checkpoint_json` (connector.py lines 135–136)
delegates to pydantic's `MockConnectorCheckpoint.model_validate_json`.  To
model it we need a JSON value type. -/
inductive Json where
  | null
  | bool (b : Bool)
  | str (s : String)
  | num (n : Int)
  | arr (elems : List Json)
  | obj (fields : List (String × Json))

/-- First field of the given name in a JSON object's field list. -/
def getField (fields : List (String × Json)) (key : String) : Option Json :=
  match fields with
  | [] => none
  | (k, v) :: rest => if k = key then some v else getField rest key

/-- `MalformedCheckpointError` — the error a failed checkpoint deserialization
surfaces as.  Modelled from the spec: the class and the wrapper that converts
pydantic's validation failure into it live in `onyx/connectors/interfaces.py`,
which is not under `src/`; the spec §4.1 says `validate_checkpoint(raw)` «fails
with MalformedCheckpointError if the persisted blob doesn't deserialize». -/
structure MalformedCheckpointError where
  message : String
deriving Repr, DecidableEq

/-- Pydantic deserialization of the `last_document_id: str | None = None`
field: absent means the default `None`; JSON `null` and strings are accepted;
any other JSON value is a validation error. -/
def parseLastDocumentId : Option Json →
    Except MalformedCheckpointError (Option String)
  | none => .ok none
  | some .null => .ok none
  | some (.str s) => .ok (some s)
  | some _ => .error ⟨"last_document_id: input is not a valid string or null"⟩

/-- `MockConnector.validate_checkpoint_json` (connector.py lines 135–136):
`MockConnectorCheckpoint.model_validate_json(checkpoint_json)` on an already
lexed JSON value.  The input must be a JSON object carrying a boolean
`has_more` (required, from the `ConnectorCheckpoint` base) and an optional
string-or-null `last_document_id`; pydantic ignores extra fields.  Pydantic's
lax coercions of other primitive types are not modelled. -/
def validate_checkpoint_json (j : Json) :
    Except MalformedCheckpointError MockConnectorCheckpoint :=
  match j with
  | .obj fields =>
      match getField fields "has_more" with
      | some (.bool b) =>
          match parseLastDocumentId (getField fields "last_document_id") with
          | .ok ldi => .ok { has_more := b, last_document_id := ldi }
          | .error e => .error e
      | some _ => .error ⟨"has_more: input is not a valid boolean"⟩
      | none => .error ⟨"has_more: field required"⟩
  | _ => .error ⟨"input is not a valid object"⟩

/-- Modelled from the spec: §4.1 «fails with MalformedCheckpointError if the
persisted blob doesn't deserialize».  This is the spec-side description of
which blobs deserialize into a valid `MockConnectorCheckpoint` and what they
deserialize to, written independently of `validate_checkpoint_json` for the
refinement theorem: a JSON object whose `has_more` member is a boolean and
whose `last_document_id` member, when present, is a string or null. -/
def checkpointOfJson (j : Json) : Option MockConnectorCheckpoint :=
  match j with
  | .obj fields =>
      match getField fields "has_more", getField fields "last_document_id" with
      | some (.bool b), none =>
          some { has_more := b, last_document_id := none }
      | some (.bool b), some .null =>
          some { has_more := b, last_document_id := none }
      | some (.bool b), some (.str s) =>
          some { has_more := b, last_document_id := some s }
      | _, _ => none
  | _ => none

/-- Forget the error of an `Except` result. -/
def exceptToOption {ε α : Type} : Except ε α → Option α
  | .ok a => some a
  | .error _ => none

/-! ## Slack permission sync (src/backend/ee/onyx/external_permissions/slack/doc_sync.py)

The Slack Web API is modelled as explicit inputs: the id→email map fetched by
`fetch_user_id_to_email_map`, the public/private channel-id lists returned by
`get_channels`, a per-channel member-id list (the flattened
`conversations_members` pages), and a `users_info` profile-email oracle
`String → Option String`. -/

/-- `_fetch_workspace_permissions` (doc_sync.py lines 24–36): the set of all
emails in the id→email map, no groups, `is_public=False`. -/
def fetch_workspace_permissions (user_id_to_email_map : List (String × String)) :
    ExternalAccess :=
  { external_user_emails :=
      (user_id_to_email_map.map Prod.snd).foldl insertElem []
    external_user_group_ids := []
    is_public := false }

/-- Python `dict.get` on the id→email map (insertions are modelled by
prepending, so the first match is the live binding). -/
def lookupMap (m : List (String × String)) (k : String) : Option String :=
  match m with
  | [] => none
  | (k', v) :: rest => if k' = k then some v else lookupMap rest k

/-- The `if not member_email` test after `user_id_to_email_map.get(member_id)`:
yields the email only when the map holds a truthy (non-empty) entry. -/
def truthyLookup (m : List (String × String)) (k : String) : Option String :=
  truthyStr (lookupMap m k)

/-- State threaded through the member loop of `_fetch_channel_permissions`
(doc_sync.py lines 74–90): the growing `member_emails` set, the shared mutable
`user_id_to_email_map`, and — as instrumentation of the external calls — the
list of user ids passed to `slack_client.users_info`, in call order. -/
structure MemberScanState where
  member_emails : List String
  idMap : List (String × String)
  lookups : List String
deriving Repr, DecidableEq

/-- One iteration of `for member_id in member_ids` (doc_sync.py lines 76–90):
take the mapped email when truthy; otherwise call `users_info` (recorded in
`lookups`), and if the profile email is truthy cache it in the map and add it,
else skip the member. -/
def processMember (users_info_email : String → Option String)
    (st : MemberScanState) (member_id : String) : MemberScanState :=
  match truthyLookup st.idMap member_id with
  | some e => { st with member_emails := insertElem st.member_emails e }
  | none =>
      let lookups' := st.lookups ++ [member_id]
      match truthyStr (users_info_email member_id) with
      | some e =>
          { member_emails := insertElem st.member_emails e
            idMap := (member_id, e) :: st.idMap
            lookups := lookups' }
      | none => { st with lookups := lookups' }

/-- The private-channel loop of `_fetch_channel_permissions` (doc_sync.py
lines 65–98): for each private channel id, scan its members (threading the
shared id→email map and the `users_info` call log through) and record an
`ExternalAccess` with the collected emails, no groups, `is_public=False`. -/
def processPrivateChannels (users_info_email : String → Option String)
    (members_of : String → List String) :
    List String → List (String × String) → List String →
    List (String × ExternalAccess) × List (String × String) × List String
  | [], idMap, lookups => ([], idMap, lookups)
  | channel_id :: rest, idMap, lookups =>
      let st := (members_of channel_id).foldl (processMember users_info_email)
        { member_emails := [], idMap := idMap, lookups := lookups }
      let (perms, idMap', lookups') :=
        processPrivateChannels users_info_email members_of rest st.idMap st.lookups
      ((channel_id,
        { external_user_emails := st.member_emails
          external_user_group_ids := []
          is_public := false }) :: perms, idMap', lookups')

/-- `_fetch_channel_permissions` (doc_sync.py lines 39–100): every public
channel id is mapped to the caller-supplied `workspace_permissions`; every
private channel id to the access record built from its enumerated members.
Returns the channel→access entries, the updated id→email map, and the
`users_info` call log. -/
def fetch_channel_permissions
    (public_channel_ids private_channel_ids : List String)
    (members_of : String → List String)
    (users_info_email : String → Option String)
    (workspace_permissions : ExternalAccess)
    (user_id_to_email_map : List (String × String)) :
    List (String × ExternalAccess) × List (String × String) × List String :=
  let publicPerms := public_channel_ids.map (fun cid => (cid, workspace_permissions))
  let (privatePerms, idMap', lookups) :=
    processPrivateChannels users_info_email members_of private_channel_ids
      user_id_to_email_map []
  (publicPerms ++ privatePerms, idMap', lookups)

/-- A slim document as consumed by `_get_slack_document_access`: id plus
optional external access (`SlimDocument` lives in `onyx/connectors/models.py`,
not under `src/`; only the two fields the function reads are modelled). -/
structure SlimDocument where
  id : String
  external_access : Option ExternalAccess
deriving Repr, DecidableEq

/-- The inner `for doc_metadata in doc_metadata_batch` loop of
`_get_slack_document_access` (doc_sync.py lines 111–122): yield one
`DocExternalAccess` per document, raising `ValueError` at the first document
with no external access.  Returns the records yielded before the error. -/
def processSlimBatch : List SlimDocument →
    List DocExternalAccess × Option String
  | [] => ([], none)
  | d :: rest =>
      match d.external_access with
      | none =>
          ([], some ("No external access for document " ++ d.id ++
            ". Please check to make sure that your Slack bot token has the channels:read scope"))
      | some acc =>
          let (recs, err) := processSlimBatch rest
          (⟨acc, d.id⟩ :: recs, err)

/-- `_get_slack_document_access` (doc_sync.py lines 103–129), with the slim
document generator supplied as a list of batches and the heartbeat callback
absent (the `callback=None` case).  The `channel_permissions` argument is
accepted and never read, exactly as in the source.  Yields records batch by
batch until a document with no external access raises. -/
def getSlackDocumentAccess
    (channel_permissions : List (String × ExternalAccess)) :
    List (List SlimDocument) → List DocExternalAccess × Option String
  | [] => ([], none)
  | batch :: rest =>
      match processSlimBatch batch with
      | (recs, some e) => (recs, some e)
      | (recs, none) =>
          let (recs', err) := getSlackDocumentAccess channel_permissions rest
          (recs ++ recs', err)

/-- `slack_doc_sync` (doc_sync.py lines 131–178), with the Slack Web API and
the slim-document retrieval modelled as inputs.  Raises `ValueError` when the
fetched id→email map is empty (Python `if not user_id_to_email_map`);
otherwise computes workspace permissions, channel permissions, and yields the
per-document access stream. -/
def slack_doc_sync (user_id_to_email_map : List (String × String))
    (public_channel_ids private_channel_ids : List String)
    (members_of : String → List String)
    (users_info_email : String → Option String)
    (slim_doc_batches : List (List SlimDocument)) :
    List DocExternalAccess × Option String :=
  if user_id_to_email_map.isEmpty then
    ([], some ("No user id to email map found. Please check to make sure that " ++
      "your Slack bot token has the users:read.email scope"))
  else
    let workspace_permissions := fetch_workspace_permissions user_id_to_email_map
    let (channel_permissions, _, _) :=
      fetch_channel_permissions public_channel_ids private_channel_ids
        members_of users_info_email workspace_permissions user_id_to_email_map
    getSlackDocumentAccess channel_permissions slim_doc_batches

/-! ## `expert_info_from_slack_id` (src/backend/onyx/connectors/slack/utils.py) -/

/-- `BasicExpertInfo` from `onyx/connectors/models.py` (not under `src/`): the
four fields populated at utils.py lines 171–176. -/
structure BasicExpertInfo where
  display_name : Option String
  first_name : Option String
  last_name : Option String
  email : Option String
deriving Repr, DecidableEq

/-- The `profile` sub-dict of a Slack `users_info` response
(`response.data["user"]["profile"]`); absent keys are `none`. -/
structure SlackProfile where
  display_name : Option String
  first_name : Option String
  last_name : Option String
  email : Option String
deriving Repr, DecidableEq

/-- The `user` sub-dict of a Slack `users_info` response; a missing `user`
key is the all-`none` value (the source defaults it to `{}`). -/
structure SlackUser where
  real_name : Option String
  profile : SlackProfile
deriving Repr, DecidableEq

/-- A Slack `users_info` response: the `ok` flag and the `user` payload. -/
structure UsersInfoResponse where
  ok : Bool
  user : SlackUser
deriving Repr, DecidableEq

/-- The `user_cache: dict[str, BasicExpertInfo | None]` argument, as an
association list whose live binding is the first match. -/
def cacheLookup (c : List (String × Option BasicExpertInfo)) (k : String) :
    Option (Option BasicExpertInfo) :=
  match c with
  | [] => none
  | (k', v) :: rest => if k' = k then some v else cacheLookup rest k

/-- Lines 171–176 of utils.py: build the `BasicExpertInfo` from a response,
with `display_name = user.get("real_name") or profile.get("display_name")`
(Python `or`, so an empty `real_name` falls through). -/
def buildExpert (resp : UsersInfoResponse) : BasicExpertInfo :=
  { display_name := pyOrStr resp.user.real_name resp.user.profile.display_name
    first_name := resp.user.profile.first_name
    last_name := resp.user.profile.last_name
    email := resp.user.profile.email }

/-- `expert_info_from_slack_id` (utils.py lines 151–180), with the Slack
client modelled as a `users_info` oracle.  Returns the result, the updated
cache, and the number of `users_info` calls made.  `if not user_id` returns
`None` for `None` or empty ids without a call; a cache hit returns the cached
value (possibly `None`) without a call; otherwise one call is made and its
result — `None` on a non-ok response, the built expert otherwise — is stored
in the cache and returned. -/
def expert_info_from_slack_id (user_id : Option String)
    (client : String → UsersInfoResponse)
    (user_cache : List (String × Option BasicExpertInfo)) :
    Option BasicExpertInfo × List (String × Option BasicExpertInfo) × Nat :=
  if !pyTruthyStr user_id then (none, user_cache, 0)
  else
    match user_id with
    | none => (none, user_cache, 0)
    | some uid =>
        match cacheLookup user_cache uid with
        | some v => (v, user_cache, 0)
        | none =>
            let resp := client uid
            if !resp.ok then
              (none, (uid, none) :: user_cache, 1)
            else
              let expert := buildExpert resp
              (some expert, (uid, some expert) :: user_cache, 1)

/-! ## Theorems -/

/-- Claim C2: for every `IndexAttempt`, `is_coordination_complete()` returns
true iff `total_batches` is set and `completed_batches >= total_batches`, and
in particular returns false whenever `total_batches` is unset. -/
theorem is_coordination_complete_iff (a : IndexAttempt) :
    (a.is_coordination_complete = true ↔
      ∃ t, a.total_batches = some t ∧ t ≤ a.completed_batches) ∧
    (a.total_batches = none → a.is_coordination_complete = false) := by
  constructor
  · cases h : a.total_batches with
    | none => simp [IndexAttempt.is_coordination_complete, h]
    | some t => simp [IndexAttempt.is_coordination_complete, h]
  · intro h
    simp [IndexAttempt.is_coordination_complete, h]

/-- Witness for C2: an attempt with unset `total_batches` is not coordination
complete; one with `total_batches = 3`, `completed_batches = 3` is. -/
theorem is_coordination_complete_iff_witness :
    ({ total_batches := none, completed_batches := 7 } :
      IndexAttempt).is_coordination_complete = false ∧
    ({ total_batches := some 3, completed_batches := 3 } :
      IndexAttempt).is_coordination_complete = true :=
  ⟨(is_coordination_complete_iff { total_batches := none, completed_batches := 7 }).2 rfl,
   (is_coordination_complete_iff { total_batches := some 3, completed_batches := 3 }).1.mpr
     ⟨3, rfl, le_refl 3⟩⟩

/-- Claim C8: `build_dummy_checkpoint` returns the initial checkpoint:
`has_more` is true and it carries no cursor (`last_document_id` is `None`). -/
theorem build_dummy_checkpoint_spec :
    build_dummy_checkpoint.has_more = true ∧
    build_dummy_checkpoint.last_document_id = none :=
  ⟨rfl, rfl⟩

/-- Claim C6: `validate_checkpoint_json` fails (with
`MalformedCheckpointError`) exactly on the blobs that do not deserialize into
a valid `MockConnectorCheckpoint`, and on a valid blob returns the
deserialized checkpoint — stated as agreement with the independently written
spec-side deserializer `checkpointOfJson`. -/
theorem validate_checkpoint_json_spec (j : Json) :
    exceptToOption (validate_checkpoint_json j) = checkpointOfJson j := by
  cases j with
  | null => rfl
  | bool b => rfl
  | str s => rfl
  | num n => rfl
  | arr elems => rfl
  | obj fields =>
      cases hm : getField fields "has_more" with
      | none => simp [validate_checkpoint_json, checkpointOfJson, hm, exceptToOption]
      | some v =>
          cases v with
          | bool b =>
              cases hl : getField fields "last_document_id" with
              | none =>
                  simp [validate_checkpoint_json, checkpointOfJson, hm, hl,
                    parseLastDocumentId, exceptToOption]
              | some w =>
                  cases w <;>
                    simp [validate_checkpoint_json, checkpointOfJson, hm, hl,
                      parseLastDocumentId, exceptToOption]
          | null => simp [validate_checkpoint_json, checkpointOfJson, hm, exceptToOption]
          | str s => simp [validate_checkpoint_json, checkpointOfJson, hm, exceptToOption]
          | num n => simp [validate_checkpoint_json, checkpointOfJson, hm, exceptToOption]
          | arr elems => simp [validate_checkpoint_json, checkpointOfJson, hm, exceptToOption]
          | obj fs => simp [validate_checkpoint_json, checkpointOfJson, hm, exceptToOption]

/-- Claim C9: `slack_doc_sync` fails (raises `ValueError`) when the fetched
user-id-to-email map is empty, and yields no access records in that case,
whatever the rest of the Slack workspace looks like. -/
theorem slack_doc_sync_empty_map
    (m : List (String × String)) (pub priv : List String)
    (members_of : String → List String) (users_info_email : String → Option String)
    (batches : List (List SlimDocument)) (hm : m = []) :
    (slack_doc_sync m pub priv members_of users_info_email batches).1 = [] ∧
    ((slack_doc_sync m pub priv members_of users_info_email batches).2).isSome = true := by
  subst hm
  simp [slack_doc_sync]

/-- Witness for C9: a concrete empty-map sync run yields nothing and reports
an error, despite a nonempty workspace and nonempty document batches. -/
theorem slack_doc_sync_empty_map_witness :
    (slack_doc_sync [] ["c1"] ["c2"] (fun _ => ["u1"]) (fun _ => some "a@example.com")
      [[{ id := "d1", external_access := none }]]).1 = [] ∧
    ((slack_doc_sync [] ["c1"] ["c2"] (fun _ => ["u1"]) (fun _ => some "a@example.com")
      [[{ id := "d1", external_access := none }]]).2).isSome = true :=
  slack_doc_sync_empty_map [] ["c1"] ["c2"] (fun _ => ["u1"])
    (fun _ => some "a@example.com") [[{ id := "d1", external_access := none }]] rfl

/-- Claim C10: `expert_info_from_slack_id` returns `None` without an API call
on a `None` or empty `user_id`; returns the cached value (possibly `None`)
without an API call on a cache hit; and otherwise performs exactly one lookup
and stores its result — `None` on a non-ok response, the built expert
otherwise — in the cache before returning it. -/
theorem expert_info_from_slack_id_spec
    (client : String → UsersInfoResponse)
    (cache : List (String × Option BasicExpertInfo)) :
    (expert_info_from_slack_id none client cache = (none, cache, 0)) ∧
    (expert_info_from_slack_id (some "") client cache = (none, cache, 0)) ∧
    (∀ uid v, uid ≠ "" → cacheLookup cache uid = some v →
      expert_info_from_slack_id (some uid) client cache = (v, cache, 0)) ∧
    (∀ uid, uid ≠ "" → cacheLookup cache uid = none →
      expert_info_from_slack_id (some uid) client cache =
        (if (client uid).ok then some (buildExpert (client uid)) else none,
         (uid, if (client uid).ok then some (buildExpert (client uid)) else none) :: cache,
         1)) := by
  refine ⟨rfl, rfl, ?_, ?_⟩
  · intro uid v huid hcache
    simp [expert_info_from_slack_id, pyTruthyStr, huid, hcache]
  · intro uid huid hcache
    by_cases hok : (client uid).ok <;>
      simp [expert_info_from_slack_id, pyTruthyStr, huid, hcache, hok]

/-- A concrete non-ok `users_info` response with an empty user payload, for
the C10 witness. -/
def notOkResponse : UsersInfoResponse :=
  { ok := false
    user :=
      { real_name := none
        profile :=
          { display_name := none
            first_name := none
            last_name := none
            email := none } } }

/-- Witness for C10: with a cache holding a `None` entry for `"U7"`, a lookup
of `"U7"` returns the cached `None` with no API call; an unmapped `"U9"` whose
response is not ok makes one call and caches `None`. -/
theorem expert_info_from_slack_id_spec_witness :
    (expert_info_from_slack_id (some "U7") (fun _ => notOkResponse)
      [("U7", none)] = (none, [("U7", none)], 0)) ∧
    (expert_info_from_slack_id (some "U9") (fun _ => notOkResponse)
      [] = (none, [("U9", none)], 1)) := by
  constructor
  · exact (expert_info_from_slack_id_spec (fun _ => notOkResponse)
      [("U7", none)]).2.2.1 "U7" none (by decide) rfl
  · have h := (expert_info_from_slack_id_spec (fun _ => notOkResponse)
      ([] : List (String × Option BasicExpertInfo))).2.2.2 "U9" (by decide) rfl
    simpa using h

/-- Shape of a `_load_from_checkpoint_common` trace: either empty (the
no-yields-configured `ValueError`, raised before the save) or starting with
the save of the incoming checkpoint. -/
theorem loadCommon_events_shape (conn : MockConnectorState)
    (startTime endTime : Int) (cp : MockConnectorCheckpoint)
    (include_permissions : Bool) :
    (loadFromCheckpointCommon conn startTime endTime cp
      include_permissions).1.events = [] ∨
    ∃ rest, (loadFromCheckpointCommon conn startTime endTime cp
      include_permissions).1.events = MockEvent.saveCheckpoint cp :: rest := by
  rcases hcy : conn.connector_yields with _ | yields
  · left; simp [loadFromCheckpointCommon, hcy]
  · rcases hidx : yields[conn.current_yield_index]? with _ | y
    · right
      exact ⟨[], by simp [loadFromCheckpointCommon, hcy, hidx]⟩
    · by_cases hex : pyTruthyStr y.unhandled_exception = true
      · right
        exact ⟨[], by simp [loadFromCheckpointCommon, hcy, hidx, hex]⟩
      · right
        exact ⟨(y.documents.map (patchDoc include_permissions)).map MockEvent.yieldDoc ++
            y.failures.map MockEvent.yieldFailure,
          by simp [loadFromCheckpointCommon, hcy, hidx, hex]⟩

/-- In every run of `_load_from_checkpoint_common`, any yielded document or
failure is strictly preceded by the save of the incoming checkpoint. -/
theorem saveCheckpoint_precedes_aux (conn : MockConnectorState)
    (startTime endTime : Int) (cp : MockConnectorCheckpoint)
    (include_permissions : Bool) (i : Nat) (ev : MockEvent)
    (hget : ((loadFromCheckpointCommon conn startTime endTime cp
      include_permissions).1.events)[i]? = some ev)
    (hyield : ev.isYield = true) :
    0 < i ∧
    ((loadFromCheckpointCommon conn startTime endTime cp
      include_permissions).1.events)[0]? = some (MockEvent.saveCheckpoint cp) := by
  rcases loadCommon_events_shape conn startTime endTime cp include_permissions with
    hsh | ⟨rest, hsh⟩
  · rw [hsh] at hget; simp at hget
  · rw [hsh] at hget ⊢
    cases i with
    | zero =>
        simp at hget
        rw [← hget] at hyield
        simp [MockEvent.isYield] at hyield
    | succ n => exact ⟨Nat.succ_pos n, by simp⟩

/-- Claim C4: on every call to `load_from_checkpoint` and
`load_from_checkpoint_with_perm_sync`, the checkpoint passed in is persisted
(the `_save_checkpoint` POST to the mock server) before any document or
failure of that batch is produced: every yield event in the trace sits
strictly after the save of the incoming checkpoint, which is the first event. -/
theorem checkpoint_persisted_before_yield (conn : MockConnectorState)
    (startTime endTime : Int) (cp : MockConnectorCheckpoint)
    (i : Nat) (ev : MockEvent) :
    (((load_from_checkpoint conn startTime endTime cp).1.events)[i]? = some ev →
      ev.isYield = true →
      0 < i ∧
      ((load_from_checkpoint conn startTime endTime cp).1.events)[0]? =
        some (MockEvent.saveCheckpoint cp)) ∧
    (((load_from_checkpoint_with_perm_sync conn startTime endTime cp).1.events)[i]? =
        some ev →
      ev.isYield = true →
      0 < i ∧
      ((load_from_checkpoint_with_perm_sync conn startTime endTime cp).1.events)[0]? =
        some (MockEvent.saveCheckpoint cp)) :=
  ⟨fun hget hyield =>
    saveCheckpoint_precedes_aux conn startTime endTime cp false i ev hget hyield,
   fun hget hyield =>
    saveCheckpoint_precedes_aux conn startTime endTime cp true i ev hget hyield⟩

/-- Witness for C4: in a one-document batch, the document yield sits at
position 1, after the checkpoint save at position 0. -/
theorem checkpoint_persisted_before_yield_witness :
    0 < 1 ∧
    ((load_from_checkpoint
      { connector_yields :=
          some [{ documents := [{ id := "d1", external_access := none }]
                  checkpoint := { has_more := false, last_document_id := some "d1" }
                  failures := []
                  unhandled_exception := none }]
        current_yield_index := 0 }
      0 100 { has_more := true, last_document_id := none }).1.events)[0]? =
      some (MockEvent.saveCheckpoint { has_more := true, last_document_id := none }) :=
  (checkpoint_persisted_before_yield
    { connector_yields :=
        some [{ documents := [{ id := "d1", external_access := none }]
                checkpoint := { has_more := false, last_document_id := some "d1" }
                failures := []
                unhandled_exception := none }]
      current_yield_index := 0 }
    0 100 { has_more := true, last_document_id := none } 1
    (MockEvent.yieldDoc { id := "d1", external_access := none })).1 rfl rfl

/-- `patchDoc` with permissions off is the identity, as in the source
(the `include_permissions and ...` guard short-circuits). -/
theorem patchDoc_false (d : Document) : patchDoc false d = d := by
  simp [patchDoc]

/-- Mapping the permissions-off patch over a document list changes nothing. -/
theorem map_patchDoc_false (ds : List Document) : ds.map (patchDoc false) = ds := by
  induction ds with
  | nil => rfl
  | cons d rest ih => simp [patchDoc_false, ih]

/-- Claim C5: a successful `load_from_checkpoint` call produces one finite
batch: the save of the incoming checkpoint, then the batch's documents, then
the batch's failures, in that order, and returns the batch's next checkpoint
(carrying its `has_more` flag) with no error. -/
theorem load_from_checkpoint_batch_shape (conn : MockConnectorState)
    (startTime endTime : Int) (cp : MockConnectorCheckpoint)
    (yields : List SingleConnectorYield) (y : SingleConnectorYield)
    (hy : conn.connector_yields = some yields)
    (hidx : yields[conn.current_yield_index]? = some y)
    (hex : pyTruthyStr y.unhandled_exception = false) :
    (load_from_checkpoint conn startTime endTime cp).1.events =
      MockEvent.saveCheckpoint cp ::
        (y.documents.map MockEvent.yieldDoc ++
          y.failures.map MockEvent.yieldFailure) ∧
    (load_from_checkpoint conn startTime endTime cp).1.returned =
      some y.checkpoint ∧
    (load_from_checkpoint conn startTime endTime cp).1.error = none := by
  simp [load_from_checkpoint, loadFromCheckpointCommon, hy, hidx, hex,
    map_patchDoc_false]

/-- Witness for C5: a concrete batch of one document and one failure yields
save, document, failure in order and returns the batch's checkpoint. -/
theorem load_from_checkpoint_batch_shape_witness :
    (load_from_checkpoint
      { connector_yields :=
          some [{ documents := [{ id := "d1", external_access := none }]
                  checkpoint := { has_more := true, last_document_id := some "d1" }
                  failures := [{ failure_message := "boom" }]
                  unhandled_exception := none }]
        current_yield_index := 0 }
      0 100 { has_more := true, last_document_id := none }).1.events =
      MockEvent.saveCheckpoint { has_more := true, last_document_id := none } ::
        ([{ id := "d1", external_access := none }].map MockEvent.yieldDoc ++
          [{ failure_message := "boom" }].map MockEvent.yieldFailure) ∧
    (load_from_checkpoint
      { connector_yields :=
          some [{ documents := [{ id := "d1", external_access := none }]
                  checkpoint := { has_more := true, last_document_id := some "d1" }
                  failures := [{ failure_message := "boom" }]
                  unhandled_exception := none }]
        current_yield_index := 0 }
      0 100 { has_more := true, last_document_id := none }).1.returned =
      some { has_more := true, last_document_id := some "d1" } ∧
    (load_from_checkpoint
      { connector_yields :=
          some [{ documents := [{ id := "d1", external_access := none }]
                  checkpoint := { has_more := true, last_document_id := some "d1" }
                  failures := [{ failure_message := "boom" }]
                  unhandled_exception := none }]
        current_yield_index := 0 }
      0 100 { has_more := true, last_document_id := none }).1.error = none :=
  load_from_checkpoint_batch_shape
    { connector_yields :=
        some [{ documents := [{ id := "d1", external_access := none }]
                checkpoint := { has_more := true, last_document_id := some "d1" }
                failures := [{ failure_message := "boom" }]
                unhandled_exception := none }]
      current_yield_index := 0 }
    0 100 { has_more := true, last_document_id := none }
    [{ documents := [{ id := "d1", external_access := none }]
       checkpoint := { has_more := true, last_document_id := some "d1" }
       failures := [{ failure_message := "boom" }]
       unhandled_exception := none }]
    { documents := [{ id := "d1", external_access := none }]
      checkpoint := { has_more := true, last_document_id := some "d1" }
      failures := [{ failure_message := "boom" }]
      unhandled_exception := none }
    rfl rfl rfl

/-- Counterexample to C1 as stated: a `load_from_checkpoint_with_perm_sync`
batch containing a document with no `ExternalAccess` does NOT fail — the mock
connector raises no error and silently fills the missing access with the
fixed mock `ExternalAccess` (connector.py lines 92–99). -/
theorem mock_perm_sync_missing_access_counterexample :
    (load_from_checkpoint_with_perm_sync
      { connector_yields :=
          some [{ documents := [{ id := "d1", external_access := none }]
                  checkpoint := { has_more := false, last_document_id := some "d1" }
                  failures := []
                  unhandled_exception := none }]
        current_yield_index := 0 }
      0 100 { has_more := true, last_document_id := none }).1 =
    { events := [MockEvent.saveCheckpoint { has_more := true, last_document_id := none },
                 MockEvent.yieldDoc { id := "d1", external_access := some mockExternalAccess }]
      error := none
      returned := some { has_more := false, last_document_id := some "d1" } } := by
  rfl

/-- A slim-document batch scan errors exactly when some document in it has no
external access. -/
theorem processSlimBatch_error_iff (docs : List SlimDocument) :
    ((processSlimBatch docs).2).isSome = true ↔
    ∃ d ∈ docs, d.external_access = none := by
  induction docs with
  | nil => simp [processSlimBatch]
  | cons d rest ih =>
      cases hacc : d.external_access with
      | none => simp [processSlimBatch, hacc]
      | some acc =>
          cases hrest : processSlimBatch rest with
          | mk recs err =>
              simp only [processSlimBatch, hacc, hrest]
              rw [hrest] at ih
              simp only at ih
              simp [ih, hacc]

/-- Amended C1: a document with no `ExternalAccess` reaching the Slack
permission-sync document stream `_get_slack_document_access` does fail the
batch loudly (`ValueError`); the mock connector's
`load_from_checkpoint_with_perm_sync` does not fail, but defaults the missing
access to the fixed mock access, which is never public. -/
theorem perm_sync_missing_access_behaviour
    (channel_permissions : List (String × ExternalAccess))
    (batches : List (List SlimDocument)) (d : Document)
    (hmissing : ∃ b ∈ batches, ∃ sd ∈ b, sd.external_access = none)
    (hdoc : d.external_access = none) :
    ((getSlackDocumentAccess channel_permissions batches).2).isSome = true ∧
    (patchDoc true d).external_access = some mockExternalAccess ∧
    mockExternalAccess.is_public = false := by
  refine ⟨?_, by simp [patchDoc, hdoc], rfl⟩
  induction batches with
  | nil => simp at hmissing
  | cons b rest ih =>
      rcases hmissing with ⟨b', hb', sd, hsd, hnone⟩
      rcases List.mem_cons.mp hb' with hb' | hb'
      · subst hb'
        have herr : ((processSlimBatch b').2).isSome = true :=
          (processSlimBatch_error_iff b').mpr ⟨sd, hsd, hnone⟩
        cases hpb : processSlimBatch b' with
        | mk recs err =>
            rw [hpb] at herr
            simp only at herr
            cases err with
            | none => simp at herr
            | some e => simp [getSlackDocumentAccess, hpb]
      · have hih := ih ⟨b', hb', sd, hsd, hnone⟩
        cases hpb : processSlimBatch b with
        | mk recs err =>
            cases err with
            | none =>
                cases hrest : getSlackDocumentAccess channel_permissions rest with
                | mk recs' err' =>
                    rw [hrest] at hih
                    simp only at hih
                    simp [getSlackDocumentAccess, hpb, hrest, hih]
            | some e => simp [getSlackDocumentAccess, hpb]

/-- Witness for amended C1: one concrete document missing access among valid
ones makes the Slack stream report an error, and the mock connector patches a
concrete access-less document with the non-public mock access. -/
theorem perm_sync_missing_access_behaviour_witness :
    ((getSlackDocumentAccess []
      [[{ id := "ok", external_access := some mockExternalAccess },
        { id := "bad", external_access := none }]]).2).isSome = true ∧
    (patchDoc true { id := "bad", external_access := none }).external_access =
      some mockExternalAccess ∧
    mockExternalAccess.is_public = false :=
  perm_sync_missing_access_behaviour []
    [[{ id := "ok", external_access := some mockExternalAccess },
      { id := "bad", external_access := none }]]
    { id := "bad", external_access := none }
    ⟨[{ id := "ok", external_access := some mockExternalAccess },
      { id := "bad", external_access := none }],
      by simp, { id := "bad", external_access := none }, by simp, rfl⟩
    rfl

/-- Every per-channel access record built by the private-channel loop has
`is_public = False`. -/
theorem processPrivateChannels_not_public
    (users_info_email : String → Option String)
    (members_of : String → List String) (ids : List String)
    (idMap : List (String × String)) (lookups : List String)
    (cid : String) (acc : ExternalAccess)
    (hmem : (cid, acc) ∈
      (processPrivateChannels users_info_email members_of ids idMap lookups).1) :
    acc.is_public = false := by
  induction ids generalizing idMap lookups with
  | nil => simp [processPrivateChannels] at hmem
  | cons c rest ih =>
      rw [processPrivateChannels] at hmem
      cases hrec : processPrivateChannels users_info_email members_of rest
          ((members_of c).foldl (processMember users_info_email)
            { member_emails := [], idMap := idMap, lookups := lookups }).idMap
          ((members_of c).foldl (processMember users_info_email)
            { member_emails := [], idMap := idMap, lookups := lookups }).lookups with
      | mk perms restState =>
          rw [hrec] at hmem
          simp only [List.mem_cons] at hmem
          rcases hmem with hmem | hmem
          · have h2 := congrArg
              (fun p : String × ExternalAccess => p.2.is_public) hmem
            simpa using h2
          · exact ih _ _ (by rw [hrec]; exact hmem)

/-- Claim C3: every `ExternalAccess` record produced by the Slack
permission-sync adapter — the workspace-level record from
`_fetch_workspace_permissions` and every per-channel record from
`_fetch_channel_permissions`, public or private — has `is_public = False`,
and each public channel (whose membership is not enumerated) is mapped to
exactly the caller-supplied workspace-level default access. -/
theorem slack_access_never_public
    (user_id_to_email_map : List (String × String))
    (public_channel_ids private_channel_ids : List String)
    (members_of : String → List String)
    (users_info_email : String → Option String)
    (workspace_permissions : ExternalAccess)
    (hwp : workspace_permissions.is_public = false) :
    (fetch_workspace_permissions user_id_to_email_map).is_public = false ∧
    (∀ cid acc, (cid, acc) ∈
        (fetch_channel_permissions public_channel_ids private_channel_ids
          members_of users_info_email workspace_permissions
          user_id_to_email_map).1 →
      acc.is_public = false) ∧
    (∀ cid, cid ∈ public_channel_ids →
      (cid, workspace_permissions) ∈
        (fetch_channel_permissions public_channel_ids private_channel_ids
          members_of users_info_email workspace_permissions
          user_id_to_email_map).1) := by
  refine ⟨rfl, ?_, ?_⟩
  · intro cid acc hmem
    rw [fetch_channel_permissions] at hmem
    cases hrec : processPrivateChannels users_info_email members_of
        private_channel_ids user_id_to_email_map [] with
    | mk privatePerms restState =>
        rw [hrec] at hmem
        simp only [List.mem_append] at hmem
        rcases hmem with hmem | hmem
        · rcases List.mem_map.mp hmem with ⟨c, _, hc⟩
          have h2 := congrArg
            (fun p : String × ExternalAccess => p.2.is_public) hc
          simp only at h2
          rw [← h2]; exact hwp
        · exact processPrivateChannels_not_public users_info_email members_of
            private_channel_ids user_id_to_email_map [] cid acc
            (by rw [hrec]; exact hmem)
  · intro cid hcid
    rw [fetch_channel_permissions]
    cases hrec : processPrivateChannels users_info_email members_of
        private_channel_ids user_id_to_email_map [] with
    | mk privatePerms restState =>
        exact List.mem_append_left _ (List.mem_map.mpr ⟨cid, hcid, rfl⟩)

/-- Witness for C3: a concrete workspace of one user, one public and one
private channel — the workspace record is not public, the private channel's
record is not public, and the public channel is mapped to the workspace
record. -/
theorem slack_access_never_public_witness :
    (fetch_workspace_permissions [("U1", "a@example.com")]).is_public = false ∧
    ("c1", fetch_workspace_permissions [("U1", "a@example.com")]) ∈
      (fetch_channel_permissions ["c1"] ["c2"] (fun _ => ["U1"]) (fun _ => none)
        (fetch_workspace_permissions [("U1", "a@example.com")])
        [("U1", "a@example.com")]).1 := by
  have h := slack_access_never_public [("U1", "a@example.com")] ["c1"] ["c2"]
    (fun _ => ["U1"]) (fun _ => none)
    (fetch_workspace_permissions [("U1", "a@example.com")]) rfl
  exact ⟨h.1, h.2.2 "c1" (by simp)⟩

/-- A value surviving `truthyStr` is a non-empty string. -/
theorem truthyStr_some_ne {o : Option String} {e : String}
    (h : truthyStr o = some e) : (e == "") = false := by
  cases o with
  | none => simp [truthyStr] at h
  | some s =>
      simp only [truthyStr] at h
      by_cases hs : s == ""
      · rw [if_pos hs] at h; exact absurd h (by simp)
      · rw [if_neg hs] at h
        injection h with h
        subst h
        simpa using hs

/-- `processMember` when the map already holds a truthy email: the email is
added, the map and the `users_info` call log are untouched. -/
theorem processMember_map_hit (users_info_email : String → Option String)
    (st : MemberScanState) (m : String) (e : String)
    (h : truthyLookup st.idMap m = some e) :
    processMember users_info_email st m =
      { st with member_emails := insertElem st.member_emails e } := by
  simp [processMember, h]

/-- `processMember` on a map miss whose `users_info` lookup yields a truthy
email: the email is added and cached, and the lookup is logged. -/
theorem processMember_lookup_hit (users_info_email : String → Option String)
    (st : MemberScanState) (m : String) (e : String)
    (h1 : truthyLookup st.idMap m = none)
    (h2 : truthyStr (users_info_email m) = some e) :
    processMember users_info_email st m =
      { member_emails := insertElem st.member_emails e
        idMap := (m, e) :: st.idMap
        lookups := st.lookups ++ [m] } := by
  simp [processMember, h1, h2]

/-- `processMember` on a map miss whose `users_info` lookup yields no email:
the member is skipped — no email added, nothing cached — and the lookup is
logged. -/
theorem processMember_skip (users_info_email : String → Option String)
    (st : MemberScanState) (m : String)
    (h1 : truthyLookup st.idMap m = none)
    (h2 : truthyStr (users_info_email m) = none) :
    processMember users_info_email st m =
      { st with lookups := st.lookups ++ [m] } := by
  simp [processMember, h1, h2]

/-- Invariant of the member scan: a user whose `users_info` lookup would
yield a truthy email has been looked up at most once, and if it has been
looked up then its email is now cached in the map. -/
def LookupInv (users_info_email : String → Option String)
    (idMap : List (String × String)) (lookups : List String) : Prop :=
  ∀ u, (truthyStr (users_info_email u)).isSome = true →
    lookups.count u ≤ 1 ∧
    (1 ≤ lookups.count u → (truthyLookup idMap u).isSome = true)

/-- One member step preserves the lookup-caching invariant. -/
theorem processMember_inv (users_info_email : String → Option String)
    (st : MemberScanState) (m : String)
    (h : LookupInv users_info_email st.idMap st.lookups) :
    LookupInv users_info_email (processMember users_info_email st m).idMap
      (processMember users_info_email st m).lookups := by
  cases hmap : truthyLookup st.idMap m with
  | some e =>
      rw [processMember_map_hit users_info_email st m e hmap]
      exact h
  | none =>
      cases hui : truthyStr (users_info_email m) with
      | some e =>
          rw [processMember_lookup_hit users_info_email st m e hmap hui]
          intro u hu
          by_cases hum : u = m
          · subst hum
            have hcur := h u hu
            have hc0 : st.lookups.count u = 0 := by
              by_contra hne
              have hpos : 1 ≤ st.lookups.count u :=
                Nat.one_le_iff_ne_zero.mpr hne
              have hsome := hcur.2 hpos
              rw [hmap] at hsome
              simp at hsome
            constructor
            · simp [List.count_append, hc0]
            · intro _
              simp only [truthyLookup, lookupMap, if_pos rfl]
              have hne := truthyStr_some_ne hui
              simp [truthyStr, hne]
          · have hcur := h u hu
            have hcount : (st.lookups ++ [m]).count u = st.lookups.count u := by
              simp [List.count_append, List.count_cons, hum]
            have hlook : truthyLookup ((m, e) :: st.idMap) u =
                truthyLookup st.idMap u := by
              simp only [truthyLookup, lookupMap]
              rw [if_neg (fun hh => hum hh.symm)]
            refine ⟨by rw [hcount]; exact hcur.1, ?_⟩
            intro hpos
            rw [hcount] at hpos
            rw [hlook]
            exact hcur.2 hpos
      | none =>
          rw [processMember_skip users_info_email st m hmap hui]
          intro u hu
          by_cases hum : u = m
          · subst hum
            rw [hui] at hu
            simp at hu
          · have hcur := h u hu
            have hcount : (st.lookups ++ [m]).count u = st.lookups.count u := by
              simp [List.count_append, List.count_cons, hum]
            exact ⟨by rw [hcount]; exact hcur.1,
              fun hpos => hcur.2 (by rw [hcount] at hpos; exact hpos)⟩

/-- Scanning a whole member list preserves the lookup-caching invariant. -/
theorem foldl_processMember_inv (users_info_email : String → Option String)
    (ms : List String) (st : MemberScanState)
    (h : LookupInv users_info_email st.idMap st.lookups) :
    LookupInv users_info_email
      (ms.foldl (processMember users_info_email) st).idMap
      (ms.foldl (processMember users_info_email) st).lookups := by
  induction ms generalizing st with
  | nil => exact h
  | cons m rest ih =>
      exact ih (processMember users_info_email st m)
        (processMember_inv users_info_email st m h)

/-- Scanning every private channel preserves the lookup-caching invariant
for the final map and call log. -/
theorem processPrivateChannels_inv (users_info_email : String → Option String)
    (members_of : String → List String) (ids : List String)
    (idMap : List (String × String)) (lookups : List String)
    (h : LookupInv users_info_email idMap lookups) :
    LookupInv users_info_email
      (processPrivateChannels users_info_email members_of ids idMap lookups).2.1
      (processPrivateChannels users_info_email members_of ids idMap lookups).2.2 := by
  induction ids generalizing idMap lookups with
  | nil => exact h
  | cons c rest ih =>
      have hst := foldl_processMember_inv users_info_email (members_of c)
        { member_emails := [], idMap := idMap, lookups := lookups } h
      have hrec' := ih _ _ hst
      rw [processPrivateChannels]
      cases hrec : processPrivateChannels users_info_email members_of rest
          ((members_of c).foldl (processMember users_info_email)
            { member_emails := [], idMap := idMap, lookups := lookups }).idMap
          ((members_of c).foldl (processMember users_info_email)
            { member_emails := [], idMap := idMap, lookups := lookups }).lookups with
      | mk perms rstate =>
          rw [hrec] at hrec'
          simpa using hrec'

/-- Amended C7: during `_fetch_channel_permissions`, a member id whose
fallback `users_info` lookup yields an email is looked up at most once across
the whole run (the successful result is cached in the map); a member id whose
map entry is missing and whose `users_info` lookup yields no email is skipped
— excluded from the channel's email set and NOT cached — with only its
logged lookup as a trace, so such an id can be looked up again later. -/
theorem slack_member_lookup_caching (users_info_email : String → Option String)
    (members_of : String → List String)
    (public_channel_ids private_channel_ids : List String)
    (workspace_permissions : ExternalAccess)
    (user_id_to_email_map : List (String × String)) :
    (∀ u, (truthyStr (users_info_email u)).isSome = true →
      ((fetch_channel_permissions public_channel_ids private_channel_ids
        members_of users_info_email workspace_permissions
        user_id_to_email_map).2.2).count u ≤ 1) ∧
    (∀ (st : MemberScanState) (m : String),
      truthyLookup st.idMap m = none →
      truthyStr (users_info_email m) = none →
      processMember users_info_email st m =
        { st with lookups := st.lookups ++ [m] }) := by
  constructor
  · intro u hu
    have hbase : LookupInv users_info_email user_id_to_email_map [] := by
      intro u' hu'
      exact ⟨by simp, by intro hpos; simp at hpos⟩
    have hinv := processPrivateChannels_inv users_info_email members_of
      private_channel_ids user_id_to_email_map [] hbase
    rw [fetch_channel_permissions]
    cases hrec : processPrivateChannels users_info_email members_of
        private_channel_ids user_id_to_email_map [] with
    | mk perms rstate =>
        rw [hrec] at hinv
        simpa using (hinv u hu).1
  · intro st m h1 h2
    exact processMember_skip users_info_email st m h1 h2

/-- Witness for amended C7: a truthy `users_info` oracle sees `"u1"` twice in
one channel but is called only once (the count bound applied concretely), and
a concrete unresolvable member is skipped with nothing cached. -/
theorem slack_member_lookup_caching_witness :
    ((fetch_channel_permissions [] ["c1"] (fun _ => ["u1", "u1"])
      (fun _ => some "e@example.com") (fetch_workspace_permissions [])
      []).2.2).count "u1" ≤ 1 ∧
    processMember (fun _ => none)
      { member_emails := [], idMap := [], lookups := [] } "u1" =
      { member_emails := [], idMap := [], lookups := ["u1"] } :=
  ⟨(slack_member_lookup_caching (fun _ => some "e@example.com")
      (fun _ => ["u1", "u1"]) [] ["c1"] (fetch_workspace_permissions []) []).1
      "u1" rfl,
   (slack_member_lookup_caching (fun _ => none) (fun _ => ["u1", "u1"])
      [] ["c1"] (fetch_workspace_permissions []) []).2
      { member_emails := [], idMap := [], lookups := [] } "u1" rfl rfl⟩

/-- Counterexample to C7 as stated: with one private channel listing the same
unknown member twice and a `users_info` lookup that finds no email, the
member is looked up TWICE across the run (the unsuccessful result is never
cached into the map, which stays empty), so «the same unknown id is looked up
at most once across the run» fails. -/
theorem slack_member_lookup_not_cached_counterexample :
    (fetch_channel_permissions [] ["c1"] (fun _ => ["u1", "u1"]) (fun _ => none)
      (fetch_workspace_permissions []) []).2.2 = ["u1", "u1"] ∧
    ¬(((fetch_channel_permissions [] ["c1"] (fun _ => ["u1", "u1"])
      (fun _ => none) (fetch_workspace_permissions []) []).2.2).count "u1" ≤ 1) ∧
    (fetch_channel_permissions [] ["c1"] (fun _ => ["u1", "u1"]) (fun _ => none)
      (fetch_workspace_permissions []) []).2.1 = [] := by
  refine ⟨rfl, ?_, rfl⟩
  decide
